import Mathlib

/-!
Verification of the orchestration layer of the AI Nutrition Checker Pro
front-end: the metabolic calculator, the input sanitizer, the provider
gateway (analyzeFood / analyzePreventiveHealth / generateAudioSummary /
quickScanFood), the error classifier (handleAIError), the WAV wrapper
(addWavHeader), and the App-level state handlers (performAnalysis,
handleGenerateReport, handleRunDeepAnalysis).

Numbers are modelled as rationals; all decimal literals appearing in the
source (6.25, 1.55, ...) are exactly representable and the arithmetic of
every statement proved here stays exact.  Byte arrays are lists of
naturals with the 32-bit writes of DataView taken modulo 4294967296 as
ECMAScript ToUint32 prescribes.  Thrown JavaScript errors are modelled as
`Except` values carrying the thrown message.
-/

namespace NutritionChecker

/-! ### JavaScript string helpers (substring search, lowering, trimming) -/

/-- Exact prefix test on character lists (`==` on characters, as JS
`String.prototype.startsWith` would see it). -/
def listPrefOf : List Char → List Char → Bool
  | [], _ => true
  | _ :: _, [] => false
  | p :: ps, h :: hs => p == h && listPrefOf ps hs

/-- `occursIn pat hay` models JS `hay.includes(pat)`: `pat` appears as a
contiguous substring of `hay`. -/
def occursIn (pat : List Char) : List Char → Bool
  | [] => pat.isEmpty
  | h :: hs => listPrefOf pat (h :: hs) || occursIn pat hs

/-- Case lowering of a character list, modelling `String.prototype.toLowerCase`
on the ASCII range that all scanned patterns live in. -/
def toLowerList (l : List Char) : List Char := l.map Char.toLower

/-- JS `hay.includes(needle)` on strings. -/
def includes (hay needle : String) : Bool := occursIn needle.data hay.data

/-- JS `hay.toLowerCase().includes(needle)` on strings. -/
def lowerIncludes (hay needle : String) : Bool :=
  occursIn needle.data (toLowerList hay.data)

/-- `String.prototype.trim`: drop surrounding whitespace. -/
def trimList (l : List Char) : List Char :=
  ((l.dropWhile Char.isWhitespace).reverse.dropWhile Char.isWhitespace).reverse

/-! ### The metabolic calculator (`calculateMetabolicMetrics`) -/

inductive Gender where
  | male
  | female
  | other
deriving DecidableEq, Repr

structure UserProfile where
  age : ℚ
  gender : Gender
  height_cm : ℚ
  weight_kg : ℚ
  activity_level : String
  goal : String
deriving DecidableEq, Repr

structure MetabolicMetrics where
  bmr : ℚ
  tdee : ℚ
  activity_factor : ℚ
deriving DecidableEq, Repr

/-- The `activityFactors` record of the source, as an association list. -/
def activityFactors : List (String × ℚ) :=
  [("sedentary", 1.2), ("light", 1.375), ("moderate", 1.55),
   ("active", 1.725), ("athlete", 1.9)]

/-- JS `a || b` on an optionally-present number (`0` is falsy). -/
def jsNumOr (a : Option ℚ) (b : ℚ) : ℚ :=
  match a with
  | some q => if q = 0 then b else q
  | none => b

/-- `calculateMetabolicMetrics` from `services/ai.ts`. -/
def calculateMetabolicMetrics (profile : UserProfile) : MetabolicMetrics :=
  let bmr : ℚ :=
    if profile.gender = Gender.male then
      10 * profile.weight_kg + 6.25 * profile.height_cm - 5 * profile.age + 5
    else
      10 * profile.weight_kg + 6.25 * profile.height_cm - 5 * profile.age - 161
  let factor := jsNumOr (activityFactors.lookup profile.activity_level) 1.2
  { bmr := bmr, tdee := bmr * factor, activity_factor := factor }

/-- The activity-factor table as the specification words it: the five named
levels map to their table values and anything else defaults to 1.2. -/
def claimedActivityFactor (lvl : String) : ℚ :=
  if lvl = "sedentary" then 1.2
  else if lvl = "light" then 1.375
  else if lvl = "moderate" then 1.55
  else if lvl = "active" then 1.725
  else if lvl = "athlete" then 1.9
  else 1.2

/-- `DEFAULT_PROFILE` from `App.tsx`. -/
def defaultProfile : UserProfile :=
  { age := 30, gender := Gender.male, height_cm := 175, weight_kg := 70,
    activity_level := "moderate", goal := "maintenance" }

/-! ### The input sanitizer (`sanitizeInput`) -/

/-- The effect of `input.replace(/<[^>]*>?/gm, '')`: scanning left to right,
a `<` opens a tag; every following character up to and including the first
`>` is removed (to the end of the input when no `>` follows); everything
outside such a region is kept.  The boolean is the "inside a tag" state. -/
def stripTagsGo : Bool → List Char → List Char
  | _, [] => []
  | false, c :: cs =>
    if c = '<' then stripTagsGo true cs else c :: stripTagsGo false cs
  | true, c :: cs =>
    if c = '>' then stripTagsGo false cs else stripTagsGo true cs

/-- HTML-tag removal applied by `sanitizeInput` before the injection scan. -/
def stripTags (s : String) : List Char := stripTagsGo false s.data

/-- The `injectionPatterns` array of the source (all lowercase). -/
def injectionPatterns : List String :=
  ["ignore all previous instructions", "forget everything you were told",
   "system instruction", "act as", "you are now", "reveal your prompt"]

def securityAlertMessage : String :=
  "Security Alert: Potential prompt manipulation detected. Please use a standard food query."

/-- `sanitizeInput` from `services/ai.ts`.  A thrown `Error` is modelled as
`Except.error` carrying the thrown message. -/
def sanitizeInput (input : String) : Except String String :=
  let sanitized := stripTags input
  if injectionPatterns.any (fun p => occursIn p.data (toLowerList sanitized)) then
    Except.error securityAlertMessage
  else
    Except.ok (String.mk (trimList sanitized))

/-- `true` exactly on the `Except.error` constructor. -/
def isErr {ε α : Type} : Except ε α → Bool
  | Except.error _ => true
  | Except.ok _ => false

/-! ### The error classifier (`handleAIError`) -/

/-- A JavaScript failure value as `handleAIError` inspects it: the message
string (`error?.message || String(error)`), the optional numeric `status`
and `statusCode` fields, and whether the value is a `SyntaxError` instance. -/
structure JsError where
  message : String
  status : Option Nat := none
  statusCode : Option Nat := none
  isSyntaxError : Bool := false
deriving DecidableEq, Repr

/-- JS word characters, the `\w` class of the `\b\d{3}\b` status regex. -/
def isWordChar (c : Char) : Bool := c.isAlphanum || c == '_'

/-- Maximal runs of word characters of a character list (accumulator holds
the current run reversed). -/
def wordRunsGo : List Char → List Char → List (List Char)
  | acc, [] => if acc.isEmpty then [] else [acc.reverse]
  | acc, c :: cs =>
    if isWordChar c then wordRunsGo (c :: acc) cs
    else if acc.isEmpty then wordRunsGo [] cs
    else acc.reverse :: wordRunsGo [] cs

def wordRuns (s : String) : List (List Char) := wordRunsGo [] s.data

def digitsVal (l : List Char) : Nat :=
  l.foldl (fun n c => n * 10 + (c.toNat - 48)) 0

/-- `message.match(/\b\d{3}\b/)` followed by `parseInt`: the first maximal
word-character run that consists of exactly three digits (digits are word
characters, so a `\b\d{3}\b` match is precisely such a run). -/
def findStatusInMessage (msg : String) : Option Nat :=
  ((wordRuns msg).find? fun r => r.length == 3 && r.all Char.isDigit).map digitsVal

/-- JS `a || b` on optionally-present numbers (`0` is falsy). -/
def jsOrNat (a b : Option Nat) : Option Nat :=
  match a with
  | some n => if n = 0 then b else some n
  | none => b

/-- `error?.status || error?.statusCode || (statusMatch ? parseInt(...) : null)`. -/
def effStatus (e : JsError) : Option Nat :=
  jsOrNat e.status (jsOrNat e.statusCode (findStatusInMessage e.message))

inductive ErrorCategory where
  | rateLimited
  | unauthorized
  | contentBlocked
  | providerUnavailable
  | networkError
  | dataError
  | unknown
deriving DecidableEq, Repr

def rateLimitedMessage : String :=
  "The AI service is currently busy or you\x27ve reached the usage limit. Please wait about 60 seconds and try again. This is common with free-tier API keys during peak times."

def unauthorizedMessage : String :=
  "Connection failed: The API key appears to be missing or invalid. Please ensure GEMINI_API_KEY is correctly set in your environment variables."

def contentBlockedMessage : String :=
  "Analysis Blocked: The AI safety filters flagged this query. This usually happens if the input is ambiguous or contains sensitive medical terms. Please try a simpler food name."

def providerUnavailableMessage : String :=
  "The AI provider is currently experiencing high load or technical difficulties. Please try again in a few moments."

def networkErrorMessage : String :=
  "Connection Error: Unable to reach the AI service. Please check your internet connection and ensure no firewall is blocking the request."

def dataErrorMessage : String :=
  "Data Error: The AI returned an unreadable response. This can happen if the model\x27s output was cut short. Please try your request again."

def unknownErrorMessage : String :=
  "We couldn\x27t process that request. Please try again with a more specific food name or description."

/-- Condition of the 429/quota branch of `handleAIError`, verbatim. -/
def rateLimitedTrigger (e : JsError) : Bool :=
  effStatus e == some 429 || includes e.message "429" ||
  lowerIncludes e.message "quota" || lowerIncludes e.message "rate limit" ||
  lowerIncludes e.message "exhausted"

/-- Condition of the 401/403 branch of `handleAIError`, verbatim. -/
def unauthorizedTrigger (e : JsError) : Bool :=
  effStatus e == some 401 || effStatus e == some 403 ||
  includes e.message "401" || includes e.message "403" ||
  lowerIncludes e.message "api key" || lowerIncludes e.message "unauthorized" ||
  lowerIncludes e.message "forbidden" || lowerIncludes e.message "invalid_argument"

/-- Condition of the safety branch of `handleAIError`, verbatim. -/
def contentBlockedTrigger (e : JsError) : Bool :=
  lowerIncludes e.message "safety" || lowerIncludes e.message "blocked" ||
  lowerIncludes e.message "candidate was blocked" ||
  lowerIncludes e.message "finish_reason_safety"

/-- Condition of the 5xx branch of `handleAIError`, verbatim
(`status && status >= 500` makes a missing or zero status falsy). -/
def providerUnavailableTrigger (e : JsError) : Bool :=
  (match effStatus e with
   | some st => decide (500 ≤ st)
   | none => false) ||
  includes e.message "500" || includes e.message "503" ||
  lowerIncludes e.message "unavailable" || lowerIncludes e.message "overloaded"

/-- Condition of the network branch of `handleAIError`, verbatim. -/
def networkErrorTrigger (e : JsError) : Bool :=
  lowerIncludes e.message "fetch" || lowerIncludes e.message "network" ||
  lowerIncludes e.message "offline" ||
  lowerIncludes e.message "failed to execute \x27fetch\x27"

/-- Condition of the JSON branch of `handleAIError`, verbatim
(`error instanceof SyntaxError` plus the message scans). -/
def dataErrorTrigger (e : JsError) : Bool :=
  e.isSyntaxError || lowerIncludes e.message "json" ||
  lowerIncludes e.message "unexpected token" || lowerIncludes e.message "parse"

/-- `handleAIError` from `services/ai.ts`: the source always throws; the
model returns the category of the branch taken together with the thrown
user-facing message. -/
def handleAIError (e : JsError) : ErrorCategory × String :=
  if rateLimitedTrigger e then (ErrorCategory.rateLimited, rateLimitedMessage)
  else if unauthorizedTrigger e then (ErrorCategory.unauthorized, unauthorizedMessage)
  else if contentBlockedTrigger e then (ErrorCategory.contentBlocked, contentBlockedMessage)
  else if providerUnavailableTrigger e then
    (ErrorCategory.providerUnavailable, providerUnavailableMessage)
  else if networkErrorTrigger e then (ErrorCategory.networkError, networkErrorMessage)
  else if dataErrorTrigger e then (ErrorCategory.dataError, dataErrorMessage)
  else (ErrorCategory.unknown, unknownErrorMessage)

/-- The classifier exactly as claim C4 words its trigger table (note: no raw
"429"/"401"/"403"/"500"/"503" substring checks and no "invalid_argument"). -/
def claimedClassify (e : JsError) : ErrorCategory :=
  if effStatus e == some 429 || lowerIncludes e.message "quota" ||
      lowerIncludes e.message "rate limit" || lowerIncludes e.message "exhausted" then
    ErrorCategory.rateLimited
  else if effStatus e == some 401 || effStatus e == some 403 ||
      lowerIncludes e.message "api key" || lowerIncludes e.message "unauthorized" ||
      lowerIncludes e.message "forbidden" then
    ErrorCategory.unauthorized
  else if lowerIncludes e.message "safety" || lowerIncludes e.message "blocked" ||
      lowerIncludes e.message "candidate was blocked" then
    ErrorCategory.contentBlocked
  else if (match effStatus e with
           | some st => decide (500 ≤ st)
           | none => false) ||
      lowerIncludes e.message "unavailable" || lowerIncludes e.message "overloaded" then
    ErrorCategory.providerUnavailable
  else if lowerIncludes e.message "fetch" || lowerIncludes e.message "network" ||
      lowerIncludes e.message "offline" then
    ErrorCategory.networkError
  else if e.isSyntaxError || lowerIncludes e.message "json" ||
      lowerIncludes e.message "parse" || lowerIncludes e.message "unexpected token" then
    ErrorCategory.dataError
  else ErrorCategory.unknown

/-- The classifier as the amended claim words it: the source's trigger
conditions, first match wins. -/
def amendedClassify (e : JsError) : ErrorCategory :=
  if rateLimitedTrigger e then ErrorCategory.rateLimited
  else if unauthorizedTrigger e then ErrorCategory.unauthorized
  else if contentBlockedTrigger e then ErrorCategory.contentBlocked
  else if providerUnavailableTrigger e then ErrorCategory.providerUnavailable
  else if networkErrorTrigger e then ErrorCategory.networkError
  else if dataErrorTrigger e then ErrorCategory.dataError
  else ErrorCategory.unknown

/-! ### JavaScript values, provider outcomes and the gateway operations -/

/-- The shape of a `JSON.parse` result as far as the gateway inspects it
(truthiness and `typeof`); object and array contents are never examined. -/
inductive JsValue where
  | nullV
  | boolV (b : Bool)
  | numV (q : ℚ)
  | strV (s : String)
  | arrV
  | objV
deriving DecidableEq, Repr

/-- JS truthiness of a value. -/
def jsTruthy : JsValue → Bool
  | JsValue.nullV => false
  | JsValue.boolV b => b
  | JsValue.numV q => if q = 0 then false else true
  | JsValue.strV s => if s = "" then false else true
  | JsValue.arrV => true
  | JsValue.objV => true

/-- JS `typeof x === 'object'` (true for null, arrays and objects). -/
def isObjectType : JsValue → Bool
  | JsValue.nullV => true
  | JsValue.arrV => true
  | JsValue.objV => true
  | _ => false

/-- Outcome of one `ai.models.generateContent` call: either the call throws,
or it resolves to a response whose `.text` is the given optional string. -/
inductive ProviderOutcome where
  | throwErr (e : JsError)
  | respond (text : Option String)

/-- Falsiness of `response.text` (`undefined` or the empty string). -/
def jsTextFalsy : Option String → Bool
  | none => true
  | some s => s == ""

def noResponseMessage : String := "No response from AI"

def invalidFormatMessage : String :=
  "Data Error: The AI returned an invalid response format."

/-- `analyzeFood` from `services/ai.ts`, with the provider call and
`JSON.parse` supplied as oracles.  Returns the result (`Except.error` is the
classified thrown message) paired with whether the provider was invoked. -/
def analyzeFoodRun (foodQuery : String) (profile : UserProfile) (mode : String)
    (downloadReport : Bool) (provider : ProviderOutcome)
    (parseFn : String → Except String JsValue) : Except String JsValue × Bool :=
  match sanitizeInput foodQuery with
  | Except.error msg => (Except.error (handleAIError { message := msg }).2, false)
  | Except.ok _sanitizedQuery =>
    let _metrics := calculateMetabolicMetrics profile
    let _mode := mode
    let _dl := downloadReport
    match provider with
    | ProviderOutcome.throwErr e => (Except.error (handleAIError e).2, true)
    | ProviderOutcome.respond text =>
      if jsTextFalsy text then
        (Except.error (handleAIError { message := noResponseMessage }).2, true)
      else
        match parseFn (text.getD "") with
        | Except.error m =>
          (Except.error (handleAIError { message := m, isSyntaxError := true }).2, true)
        | Except.ok v =>
          if !jsTruthy v || !isObjectType v then
            (Except.error (handleAIError { message := invalidFormatMessage }).2, true)
          else (Except.ok v, true)

/-- `analyzePreventiveHealth` from `services/ai.ts` (no sanitizer; same
empty-body and parse checks as `analyzeFood`). -/
def analyzePreventiveHealthRun (profile : UserProfile) (provider : ProviderOutcome)
    (parseFn : String → Except String JsValue) : Except String JsValue :=
  let _metrics := calculateMetabolicMetrics profile
  match provider with
  | ProviderOutcome.throwErr e => Except.error (handleAIError e).2
  | ProviderOutcome.respond text =>
    if jsTextFalsy text then
      Except.error (handleAIError { message := noResponseMessage }).2
    else
      match parseFn (text.getD "") with
      | Except.error m =>
        Except.error (handleAIError { message := m, isSyntaxError := true }).2
      | Except.ok v =>
        if !jsTruthy v || !isObjectType v then
          Except.error (handleAIError { message := invalidFormatMessage }).2
        else Except.ok v

/-- The argument handed to `JSON.parse` by `quickScanFood`: a falsy
`response.text` is replaced by the two-character empty-object text, written
here by its character codes. -/
def quickScanParseText : Option String → String
  | some s => if s == "" then "\x7b\x7d" else s
  | none => "\x7b\x7d"

/-- `quickScanFood` from `services/ai.ts`: every failure path ends in the
outer catch, which routes through `handleAIError`, catches its rethrow, logs
and returns null. -/
def quickScanFoodRun (foodName : String) (provider : ProviderOutcome)
    (parseFn : String → Except String JsValue) : Option JsValue :=
  match sanitizeInput foodName with
  | Except.error _ => none
  | Except.ok _ =>
    match provider with
    | ProviderOutcome.throwErr _ => none
    | ProviderOutcome.respond text =>
      match parseFn (quickScanParseText text) with
      | Except.error _ => none
      | Except.ok v => if !jsTruthy v || !isObjectType v then none else some v

/-! ### The WAV wrapper (`addWavHeader`, `generateAudioSummary`) -/

/-- Little-endian bytes of a 16-bit `DataView.setUint16` write. -/
def le16 (v : Nat) : List Nat := [v % 256, v / 256 % 256]

/-- Little-endian bytes of a 32-bit `DataView.setUint32(..., true)` write. -/
def le32 (v : Nat) : List Nat :=
  [v % 256, v / 256 % 256, v / 65536 % 256, v / 16777216 % 256]

/-- Big-endian bytes of a 32-bit `DataView.setUint32(..., false)` write. -/
def be32 (v : Nat) : List Nat :=
  [v / 16777216 % 256, v / 65536 % 256, v / 256 % 256, v % 256]

/-- `addWavHeader` from `services/ai.ts`: the 44-byte RIFF/WAVE header laid
out at offsets 0,4,8,12,16,20,22,24,28,32,34,36,40 followed by the PCM
bytes.  `setUint32` coerces with ToUint32, i.e. modulo 4294967296. -/
def addWavHeader (pcmData : List Nat) (sampleRate : Nat) : List Nat :=
  be32 0x52494646 ++ le32 ((36 + pcmData.length) % 4294967296) ++
  be32 0x57415645 ++ be32 0x666d7420 ++ le32 16 ++ le16 1 ++ le16 1 ++
  le32 (sampleRate % 4294967296) ++ le32 (sampleRate * 2 % 4294967296) ++
  le16 2 ++ le16 16 ++ be32 0x64617461 ++ le32 (pcmData.length % 4294967296) ++
  pcmData

/-- Value denoted by a two-byte little-endian field. -/
def le16Val : List Nat → Nat
  | [a, b] => a + 256 * b
  | _ => 0

/-- Value denoted by a four-byte little-endian field. -/
def le32Val : List Nat → Nat
  | [a, b, c, d] => a + 256 * b + 65536 * c + 16777216 * d
  | _ => 0

def noAudioMessage : String := "No audio data generated"

/-- `generateAudioSummary` from `services/ai.ts`, with the provider call
supplied as an oracle yielding the decoded PCM bytes (or no inline data).
The base64 transport encoding on either side is not modelled; the value of
interest is the byte sequence handed to the playback layer. -/
def generateAudioSummaryRun (provider : Except JsError (Option (List Nat))) :
    Except String (List Nat) :=
  match provider with
  | Except.error e => Except.error (handleAIError e).2
  | Except.ok none => Except.error (handleAIError { message := noAudioMessage }).2
  | Except.ok (some pcm) => Except.ok (addWavHeader pcm 24000)

/-! ### App-level state and handlers (`App.tsx`) -/

/-- A deep-analysis attachment.  Its contents are opaque to the merge logic;
as a parsed JSON object it is always truthy, so the source's truthiness
tests on it coincide with presence of the option. -/
structure PreventiveHealthData where
  payload : JsValue
deriving DecidableEq, Repr

/-- A `NutritionAnalysisResponse` as the App handlers touch it: the ten
fields of the interface, each possibly absent at runtime (the parsed JSON is
cast, not validated). -/
structure AnalysisResponse where
  food_analysis : Option JsValue
  personalized_impact : Option JsValue
  risk_prediction : Option JsValue
  gut_health_analysis : Option JsValue
  food_compatibility : Option JsValue
  ai_recommendations : Option JsValue
  ui_metadata : Option JsValue
  downloadable_report : Option JsValue
  preventive_health_data : Option PreventiveHealthData
  error : Option String
deriving DecidableEq, Repr

/-- The App component state touched by the modelled handlers. -/
structure AppState where
  query : String
  loading : Bool
  reportLoading : Bool
  deepAnalysisLoading : Bool
  data : Option AnalysisResponse
  error : Option String
  history : List AnalysisResponse
deriving DecidableEq, Repr

/-- Truthiness of an optionally-present field value. -/
def jsTruthyOpt : Option JsValue → Bool
  | none => false
  | some v => jsTruthy v

def analyzeFailFallback : String := "Failed to analyze food. Please try again."

/-- The writes `performAnalysis` issues before awaiting `analyzeFood`:
`setLoading(true); setError(null); setData(null)`. -/
def performAnalysisStart (st : AppState) : AppState :=
  { st with loading := true, error := none, data := none }

/-- The rest of `performAnalysis`, applied to the awaited outcome of
`analyzeFood` (`Except.error` carries the thrown message). -/
def performAnalysisFinish (st : AppState)
    (outcome : Except String AnalysisResponse) : AppState :=
  match outcome with
  | Except.ok result =>
    let st1 := { st with data := some result }
    let st2 :=
      if jsTruthyOpt result.food_analysis then
        { st1 with history := (result :: st1.history).take 10 }
      else st1
    { st2 with loading := false }
  | Except.error msg =>
    { st with error := some (if msg == "" then analyzeFailFallback else msg),
              loading := false }

/-- `performAnalysis` from `App.tsx`. -/
def performAnalysis (st : AppState)
    (outcome : Except String AnalysisResponse) : AppState :=
  performAnalysisFinish (performAnalysisStart st) outcome

/-- `handleGenerateReport` from `App.tsx`: guard on a non-blank query and a
present current response; on success copy a present `preventive_health_data`
of the previous response onto the fresh one before it becomes current; on
failure only alert. -/
def handleGenerateReport (st : AppState)
    (outcome : Except String AnalysisResponse) : AppState :=
  if (trimList st.query.data).isEmpty then st
  else
    match st.data with
    | none => st
    | some d =>
      match outcome with
      | Except.ok result =>
        let merged :=
          if d.preventive_health_data.isSome then
            { result with preventive_health_data := d.preventive_health_data }
          else result
        { st with data := some merged, reportLoading := false }
      | Except.error _ => { st with reportLoading := false }

/-- `handleRunDeepAnalysis` from `App.tsx`: guard on a present current
response; on success replace only its `preventive_health_data`; on failure
only alert. -/
def handleRunDeepAnalysis (st : AppState)
    (outcome : Except String PreventiveHealthData) : AppState :=
  match st.data with
  | none => st
  | some _ =>
    match outcome with
    | Except.ok result =>
      { st with
        data := st.data.map fun prev =>
          { prev with preventive_health_data := some result },
        deepAnalysisLoading := false }
    | Except.error _ => { st with deepAnalysisLoading := false }

/-! ### Concrete fixtures used by witnesses -/

/-- A `JSON.parse` oracle agreeing with the real parser on the two inputs the
witnesses exercise: the empty-object text parses to an (empty) object, and
anything else is rejected. -/
def emptyObjOracle : String → Except String JsValue :=
  fun s =>
    if s == "\x7b\x7d" then Except.ok JsValue.objV
    else Except.error "Unexpected token"

/-- A well-formed sample response carrying all required substructures. -/
def sampleAnalysis : AnalysisResponse :=
  { food_analysis := some JsValue.objV, personalized_impact := some JsValue.objV,
    risk_prediction := some JsValue.objV, gut_health_analysis := some JsValue.objV,
    food_compatibility := some JsValue.objV, ai_recommendations := some JsValue.arrV,
    ui_metadata := some JsValue.objV, downloadable_report := none,
    preventive_health_data := none, error := none }

/-- The session's initial App state. -/
def emptyAppState : AppState :=
  { query := "", loading := false, reportLoading := false,
    deepAnalysisLoading := false, data := none, error := none, history := [] }

lemma lookup_factor_eq (s : String) :
    jsNumOr (activityFactors.lookup s) 1.2 = claimedActivityFactor s := by
  by_cases h1 : s = "sedentary"
  · subst h1
    simp only [activityFactors, List.lookup, jsNumOr, claimedActivityFactor]
    norm_num
  by_cases h2 : s = "light"
  · subst h2
    have b1 : (("light" : String) == "sedentary") = false := by decide
    simp only [activityFactors, List.lookup, jsNumOr, claimedActivityFactor, b1,
      beq_self_eq_true, if_neg h1]
    norm_num
  by_cases h3 : s = "moderate"
  · subst h3
    have b1 : (("moderate" : String) == "sedentary") = false := by decide
    have b2 : (("moderate" : String) == "light") = false := by decide
    simp only [activityFactors, List.lookup, jsNumOr, claimedActivityFactor, b1, b2,
      beq_self_eq_true, if_neg h1, if_neg h2]
    norm_num
  by_cases h4 : s = "active"
  · subst h4
    have b1 : (("active" : String) == "sedentary") = false := by decide
    have b2 : (("active" : String) == "light") = false := by decide
    have b3 : (("active" : String) == "moderate") = false := by decide
    simp only [activityFactors, List.lookup, jsNumOr, claimedActivityFactor, b1, b2,
      b3, beq_self_eq_true, if_neg h1, if_neg h2, if_neg h3]
    norm_num
  by_cases h5 : s = "athlete"
  · subst h5
    have b1 : (("athlete" : String) == "sedentary") = false := by decide
    have b2 : (("athlete" : String) == "light") = false := by decide
    have b3 : (("athlete" : String) == "moderate") = false := by decide
    have b4 : (("athlete" : String) == "active") = false := by decide
    simp only [activityFactors, List.lookup, jsNumOr, claimedActivityFactor, b1, b2,
      b3, b4, beq_self_eq_true, if_neg h1, if_neg h2, if_neg h3, if_neg h4]
    norm_num
  have e1 : (s == "sedentary") = false := beq_eq_false_iff_ne.mpr h1
  have e2 : (s == "light") = false := beq_eq_false_iff_ne.mpr h2
  have e3 : (s == "moderate") = false := beq_eq_false_iff_ne.mpr h3
  have e4 : (s == "active") = false := beq_eq_false_iff_ne.mpr h4
  have e5 : (s == "athlete") = false := beq_eq_false_iff_ne.mpr h5
  simp only [activityFactors, List.lookup, e1, e2, e3, e4, e5, jsNumOr,
    claimedActivityFactor, if_neg h1, if_neg h2, if_neg h3, if_neg h4, if_neg h5]

/-- Claim C1: for every UserProfile, `calculateMetabolicMetrics` is a total,
deterministic function with the Mifflin-St Jeor BMR (male +5, female/other
−161), the table activity factor with unknown levels defaulting to 1.2, and
tdee = bmr * activity_factor. -/
theorem calculateMetabolicMetrics_spec (p : UserProfile) :
    ((calculateMetabolicMetrics p).bmr =
      if p.gender = Gender.male then
        10 * p.weight_kg + 6.25 * p.height_cm - 5 * p.age + 5
      else
        10 * p.weight_kg + 6.25 * p.height_cm - 5 * p.age - 161)
    ∧ (calculateMetabolicMetrics p).activity_factor =
        claimedActivityFactor p.activity_level
    ∧ (calculateMetabolicMetrics p).tdee =
        (calculateMetabolicMetrics p).bmr *
          (calculateMetabolicMetrics p).activity_factor := by
  refine ⟨rfl, ?_, rfl⟩
  exact lookup_factor_eq p.activity_level

/-- Claim C2 is false on the code: for the default profile the calculator
returns BMR 1648.75 and TDEE 2555.5625, not the claimed 1678.75 / 2602.1625. -/
theorem calculateMetabolicMetrics_default_counterexample :
    ¬ ((calculateMetabolicMetrics defaultProfile).bmr = 1678.75
        ∧ (calculateMetabolicMetrics defaultProfile).tdee = 2602.1625) := by
  rintro ⟨hb, -⟩
  norm_num [calculateMetabolicMetrics, defaultProfile] at hb

/-- Claim C2 (amended): for the profile {age 30, male, 175 cm, 70 kg,
moderate} the calculator returns BMR = 1648.75 and TDEE = 2555.5625. -/
theorem calculateMetabolicMetrics_default_values :
    (calculateMetabolicMetrics defaultProfile).bmr = 1648.75
    ∧ (calculateMetabolicMetrics defaultProfile).tdee = 2555.5625 := by
  have hf : jsNumOr (activityFactors.lookup defaultProfile.activity_level) 1.2
      = 1.55 := by
    rw [lookup_factor_eq]
    have : defaultProfile.activity_level = "moderate" := rfl
    rw [this]
    have b1 : ¬ ("moderate" : String) = "sedentary" := by decide
    have b2 : ¬ ("moderate" : String) = "light" := by decide
    simp only [claimedActivityFactor, if_neg b1, if_neg b2, eq_self_iff_true,
      if_true]
  constructor
  · norm_num [calculateMetabolicMetrics, defaultProfile]
  · show (calculateMetabolicMetrics defaultProfile).tdee = 2555.5625
    simp only [calculateMetabolicMetrics, hf]
    norm_num [defaultProfile]

lemma isErr_sanitize (input : String) :
    isErr (sanitizeInput input) =
      injectionPatterns.any (fun p => occursIn p.data (toLowerList (stripTags input))) := by
  simp only [sanitizeInput]
  by_cases hc : injectionPatterns.any
      (fun p => occursIn p.data (toLowerList (stripTags input))) = true
  · rw [if_pos hc, hc]; rfl
  · rw [if_neg hc, Bool.eq_false_iff.mpr hc]; rfl

/-- Claim C3: `sanitizeInput` raises the security error exactly when, after
HTML-tag removal, the input contains (case-insensitively) one of the fixed
injection phrases; `analyzeFood` sanitizes before any provider call, so a
rejected input makes no network call and yields an error; any accepted input
is returned tag-stripped and whitespace-trimmed, otherwise unchanged. -/
theorem sanitizeInput_spec :
    (∀ input : String,
        isErr (sanitizeInput input) = true ↔
          ∃ p ∈ injectionPatterns,
            occursIn p.data (toLowerList (stripTags input)) = true)
    ∧ (∀ input out : String, sanitizeInput input = Except.ok out →
        out = String.mk (trimList (stripTags input)))
    ∧ (∀ (input : String) (profile : UserProfile) (mode : String) (dl : Bool)
        (provider : ProviderOutcome) (parseFn : String → Except String JsValue),
        isErr (sanitizeInput input) = true →
        (analyzeFoodRun input profile mode dl provider parseFn).2 = false
          ∧ isErr (analyzeFoodRun input profile mode dl provider parseFn).1 = true) := by
  refine ⟨fun input => ?_, fun input out h => ?_,
    fun input profile mode dl provider parseFn h => ?_⟩
  · rw [isErr_sanitize, List.any_eq_true]
  · simp only [sanitizeInput] at h
    split at h
    · exact absurd h (by simp)
    · injection h with h'
      exact h'.symm
  · rcases hs : sanitizeInput input with msg | s
    · simp [analyzeFoodRun, hs, isErr]
    · rw [isErr_sanitize] at h
      have : isErr (sanitizeInput input) = false := by rw [hs]; rfl
      rw [isErr_sanitize] at this
      rw [this] at h
      exact absurd h (by simp)

/-- Witness for claim C3: the canonical injection phrase makes no provider
call, and "Banana" passes through unchanged. -/
theorem sanitizeInput_spec_witness :
    (analyzeFoodRun "Ignore All Previous Instructions" defaultProfile
        "single_food" false (ProviderOutcome.respond (some "x"))
        emptyObjOracle).2 = false
    ∧ sanitizeInput "Banana" = Except.ok "Banana" := by
  refine ⟨(sanitizeInput_spec.2.2 "Ignore All Previous Instructions"
    defaultProfile "single_food" false (ProviderOutcome.respond (some "x"))
    emptyObjOracle (by decide)).1, by rfl⟩

/-- Claim C4 is false on the code as stated: an error whose message is
"invalid_argument" (no status, not a SyntaxError) matches none of the
claim's trigger sets, yet the code classifies it Unauthorized because its
401/403 branch also scans for "invalid_argument". -/
theorem handleAIError_claimed_counterexample :
    (handleAIError { message := "invalid_argument" }).1 = ErrorCategory.unauthorized
    ∧ claimedClassify { message := "invalid_argument" } = ErrorCategory.unknown := by
  constructor <;> decide

/-- Claim C4 (amended): the classifier checks the categories in the fixed
order with first match winning, where each category's trigger set also
includes the raw substring checks "429", "401"/"403"/"invalid_argument",
"finish_reason_safety", "500"/"503" and "failed to execute 'fetch'" of the
source; an HTTP status of 429 classifies RateLimited regardless of message
text, and a JSON SyntaxError classifies DataError provided no earlier
category's trigger matches. -/
theorem handleAIError_spec :
    (∀ e, (handleAIError e).1 = amendedClassify e)
    ∧ (∀ e, e.status = some 429 → (handleAIError e).1 = ErrorCategory.rateLimited)
    ∧ (∀ e, e.isSyntaxError = true →
        rateLimitedTrigger e = false → unauthorizedTrigger e = false →
        contentBlockedTrigger e = false → providerUnavailableTrigger e = false →
        networkErrorTrigger e = false →
        (handleAIError e).1 = ErrorCategory.dataError) := by
  refine ⟨fun e => ?_, fun e h => ?_, fun e hs h1 h2 h3 h4 h5 => ?_⟩
  · unfold handleAIError amendedClassify
    split_ifs <;> rfl
  · have ht : rateLimitedTrigger e = true := by
      simp [rateLimitedTrigger, effStatus, jsOrNat, h]
    simp [handleAIError, ht]
  · have hd : dataErrorTrigger e = true := by
      simp [dataErrorTrigger, hs]
    simp [handleAIError, h1, h2, h3, h4, h5, hd]

/-- Witness for claim C4: a 429-status error with an unrelated message is
RateLimited; a plain JSON SyntaxError is DataError. -/
theorem handleAIError_spec_witness :
    (handleAIError { message := "all good", status := some 429 }).1 =
      ErrorCategory.rateLimited
    ∧ (handleAIError
        { message := "Unexpected end of JSON input", isSyntaxError := true }).1 =
      ErrorCategory.dataError := by
  refine ⟨handleAIError_spec.2.1 _ rfl,
    handleAIError_spec.2.2 _ rfl (by decide) (by decide) (by decide) (by decide)
      (by decide)⟩

/-- Claim C8: for every PCM byte array of length N (N + 36 < 2^32, the range
of the 32-bit length fields), `addWavHeader` at rate 24000 yields N + 44
bytes: a RIFF/WAVE header with format tag 1, one channel, 16 bits per
sample, sample rate 24000, byte rate 48000, block align 2 and data-chunk
length N, followed by the N input bytes unmodified; `generateAudioSummary`
wraps the provider's PCM exactly this way. -/
theorem addWavHeader_spec (pcm : List Nat) (h : 36 + pcm.length < 4294967296) :
    (addWavHeader pcm 24000).length = pcm.length + 44
    ∧ addWavHeader pcm 24000 =
        [0x52, 0x49, 0x46, 0x46] ++ le32 (36 + pcm.length) ++
        [0x57, 0x41, 0x56, 0x45] ++ [0x66, 0x6d, 0x74, 0x20] ++ le32 16 ++
        le16 1 ++ le16 1 ++ le32 24000 ++ le32 48000 ++ le16 2 ++ le16 16 ++
        [0x64, 0x61, 0x74, 0x61] ++ le32 pcm.length ++ pcm
    ∧ le16Val (le16 1) = 1
    ∧ le32Val (le32 24000) = 24000
    ∧ le32Val (le32 48000) = 48000
    ∧ le16Val (le16 2) = 2
    ∧ le16Val (le16 16) = 16
    ∧ le32Val (le32 pcm.length) = pcm.length
    ∧ generateAudioSummaryRun (Except.ok (some pcm)) =
        Except.ok (addWavHeader pcm 24000) := by
  have h1 : (36 + pcm.length) % 4294967296 = 36 + pcm.length := Nat.mod_eq_of_lt h
  have h2 : pcm.length % 4294967296 = pcm.length := Nat.mod_eq_of_lt (by omega)
  refine ⟨?_, ?_, by decide, by decide, by decide, by decide, by decide, ?_, rfl⟩
  · simp [addWavHeader, le16, le32, be32]
  · simp only [addWavHeader, h1, h2]
    norm_num [be32, le32, le16]
  · have e : le32Val (le32 pcm.length) =
        pcm.length % 256 + 256 * (pcm.length / 256 % 256) +
        65536 * (pcm.length / 65536 % 256) +
        16777216 * (pcm.length / 16777216 % 256) := rfl
    rw [e]
    omega

/-- Witness for claim C8 at a concrete three-byte PCM input. -/
theorem addWavHeader_spec_witness :
    (addWavHeader [7, 8, 9] 24000).length = 3 + 44
    ∧ le32Val (le32 [7, 8, 9].length) = 3 := by
  obtain ⟨h1, -, -, -, -, -, -, hlen, -⟩ :=
    addWavHeader_spec [7, 8, 9] (by norm_num)
  exact ⟨h1, hlen⟩

/-- Claim C9 is false on one point: an empty provider body is not a
null-returning failure — `JSON.parse(text || "{}")` turns it into the empty
object, which quickScan returns. -/
theorem quickScanFood_empty_body_counterexample :
    quickScanFoodRun "Banana" (ProviderOutcome.respond none) emptyObjOracle =
      some JsValue.objV := by
  rfl

/-- Claim C9 (amended): `quickScanFood` never propagates an error — on a
rejected input, a provider error, unparseable JSON or a non-object result it
returns null; an empty body however is parsed as the empty-object text and
its parse is returned.  It is the only gateway operation that absorbs its
errors: `analyzeFood`, `analyzePreventiveHealth` and `generateAudioSummary`
all surface a provider error to their caller. -/
theorem quickScanFoodRun_spec :
    (∀ (food : String) (provider : ProviderOutcome)
        (parseFn : String → Except String JsValue),
        isErr (sanitizeInput food) = true →
        quickScanFoodRun food provider parseFn = none)
    ∧ (∀ (food : String) (e : JsError)
        (parseFn : String → Except String JsValue),
        quickScanFoodRun food (ProviderOutcome.throwErr e) parseFn = none)
    ∧ (∀ (food : String) (text : Option String)
        (parseFn : String → Except String JsValue) (m : String),
        parseFn (quickScanParseText text) = Except.error m →
        quickScanFoodRun food (ProviderOutcome.respond text) parseFn = none)
    ∧ (∀ (food : String) (text : Option String)
        (parseFn : String → Except String JsValue) (v : JsValue),
        parseFn (quickScanParseText text) = Except.ok v →
        (!jsTruthy v || !isObjectType v) = true →
        quickScanFoodRun food (ProviderOutcome.respond text) parseFn = none)
    ∧ (∀ (food : String) (parseFn : String → Except String JsValue),
        isErr (sanitizeInput food) = false →
        parseFn "\x7b\x7d" = Except.ok JsValue.objV →
        quickScanFoodRun food (ProviderOutcome.respond none) parseFn =
          some JsValue.objV)
    ∧ (∀ (profile : UserProfile) (e : JsError)
        (parseFn : String → Except String JsValue),
        isErr (analyzePreventiveHealthRun profile
          (ProviderOutcome.throwErr e) parseFn) = true
        ∧ isErr (generateAudioSummaryRun (Except.error e)) = true)
    ∧ (∀ (food : String) (profile : UserProfile) (mode : String) (dl : Bool)
        (e : JsError) (parseFn : String → Except String JsValue),
        isErr (sanitizeInput food) = false →
        isErr (analyzeFoodRun food profile mode dl
          (ProviderOutcome.throwErr e) parseFn).1 = true) := by
  refine ⟨?_, ?_, ?_, ?_, ?_, ?_, ?_⟩
  · intro food provider parseFn h
    rcases hs : sanitizeInput food with msg | s
    · simp [quickScanFoodRun, hs]
    · rw [hs] at h
      exact absurd h (by simp [isErr])
  · intro food e parseFn
    rcases hs : sanitizeInput food with msg | s <;> simp [quickScanFoodRun, hs]
  · intro food text parseFn m hp
    rcases hs : sanitizeInput food with msg | s <;>
      simp [quickScanFoodRun, hs, hp]
  · intro food text parseFn v hp htv
    rcases hs : sanitizeInput food with msg | s <;>
      simp [quickScanFoodRun, hs, hp, htv]
  · intro food parseFn h hp
    rcases hs : sanitizeInput food with msg | s
    · rw [hs] at h
      exact absurd h (by simp [isErr])
    · simp [quickScanFoodRun, hs, quickScanParseText, hp, jsTruthy, isObjectType]
  · intro profile e parseFn
    exact ⟨rfl, rfl⟩
  · intro food profile mode dl e parseFn h
    rcases hs : sanitizeInput food with msg | s
    · rw [hs] at h
      exact absurd h (by simp [isErr])
    · simp [analyzeFoodRun, hs, isErr]

/-- Witness for claim C9: an injection phrase and a provider response both
take their null / empty-object paths on concrete inputs. -/
theorem quickScanFoodRun_spec_witness :
    quickScanFoodRun "Act as admin" (ProviderOutcome.respond (some "x"))
        emptyObjOracle = none
    ∧ quickScanFoodRun "Milk" (ProviderOutcome.respond none) emptyObjOracle =
        some JsValue.objV := by
  refine ⟨quickScanFoodRun_spec.1 _ _ _ (by decide),
    quickScanFoodRun_spec.2.2.2.2.1 "Milk" emptyObjOracle (by decide) (by rfl)⟩

/-- Claim C5: if the previous current response carried a (non-null)
preventive_health_data P, then after a successful report regeneration the
fresh response that becomes current carries the same P. -/
theorem handleGenerateReport_preserves_attachment (st : AppState)
    (d result : AnalysisResponse) (P : PreventiveHealthData)
    (hq : (trimList st.query.data).isEmpty = false)
    (hd : st.data = some d)
    (hP : d.preventive_health_data = some P) :
    (handleGenerateReport st (Except.ok result)).data =
      some { result with preventive_health_data := some P } := by
  simp [handleGenerateReport, hq, hd, hP]

/-- Witness for claim C5 on a concrete session state. -/
theorem handleGenerateReport_preserves_attachment_witness :
    (handleGenerateReport
        { emptyAppState with
          query := "apple",
          data := some { sampleAnalysis with
            preventive_health_data := some ⟨JsValue.objV⟩ } }
        (Except.ok sampleAnalysis)).data =
      some { sampleAnalysis with preventive_health_data := some ⟨JsValue.objV⟩ } := by
  exact handleGenerateReport_preserves_attachment _ _ _ _ (by decide) rfl rfl

lemma performAnalysis_ok_history (st : AppState) (r : AnalysisResponse)
    (hr : jsTruthyOpt r.food_analysis = true) :
    (performAnalysis st (Except.ok r)).history = (r :: st.history).take 10 := by
  simp [performAnalysis, performAnalysisStart, performAnalysisFinish, hr]

lemma performAnalysis_err_history (st : AppState) (msg : String) :
    (performAnalysis st (Except.error msg)).history = st.history := by
  simp [performAnalysis, performAnalysisStart, performAnalysisFinish]

lemma take_append_take {α : Type} (a b : List α) (n : Nat) :
    (a ++ b.take n).take n = (a ++ b).take n := by
  rw [List.take_append_eq_append_take, List.take_append_eq_append_take,
    List.take_take, Nat.min_eq_left (Nat.sub_le n a.length)]

lemma insert_fold_history (rs : List AnalysisResponse) :
    ∀ st : AppState, (∀ r ∈ rs, jsTruthyOpt r.food_analysis = true) →
      st.history = st.history.take 10 →
      (rs.foldl (fun s r => performAnalysis s (Except.ok r)) st).history =
        (rs.reverse ++ st.history).take 10 := by
  induction rs with
  | nil =>
    intro st _ h10
    simpa using h10
  | cons r rs ih =>
    intro st hall h10
    have hr : jsTruthyOpt r.food_analysis = true := hall r (List.mem_cons_self r rs)
    have hstep : (performAnalysis st (Except.ok r)).history =
        (r :: st.history).take 10 := performAnalysis_ok_history st r hr
    have h10' : (performAnalysis st (Except.ok r)).history =
        (performAnalysis st (Except.ok r)).history.take 10 := by
      rw [hstep, List.take_take, Nat.min_self]
    rw [List.foldl_cons,
      ih _ (fun x hx => hall x (List.mem_cons_of_mem r hx)) h10', hstep,
      take_append_take, List.reverse_cons, List.append_assoc,
      List.singleton_append]

/-- Claim C6: a successful primary analysis whose response has a (truthy)
food_analysis prepends the response to History truncated to 10; History
never grows beyond 10 entries; and 11 successful insertions into an empty
history leave exactly the 10 most recent, most-recent-first. -/
theorem performAnalysis_history_spec :
    (∀ st r, jsTruthyOpt r.food_analysis = true →
        (performAnalysis st (Except.ok r)).history = (r :: st.history).take 10)
    ∧ (∀ st outcome, st.history.length ≤ 10 →
        (performAnalysis st outcome).history.length ≤ 10)
    ∧ (∀ (rs : List AnalysisResponse) (st : AppState),
        rs.length = 11 → st.history = [] →
        (∀ r ∈ rs, jsTruthyOpt r.food_analysis = true) →
        (rs.foldl (fun s r => performAnalysis s (Except.ok r)) st).history =
          rs.reverse.take 10) := by
  refine ⟨fun st r hr => performAnalysis_ok_history st r hr,
    fun st outcome hlen => ?_, fun rs st _hlen hemp hall => ?_⟩
  · cases outcome with
    | ok r =>
      by_cases hr : jsTruthyOpt r.food_analysis = true
      · rw [performAnalysis_ok_history st r hr, List.length_take]
        exact Nat.min_le_left 10 _
      · have hu : (performAnalysis st (Except.ok r)).history = st.history := by
          simp [performAnalysis, performAnalysisStart, performAnalysisFinish,
            Bool.eq_false_iff.mpr hr]
        rw [hu]
        exact hlen
    | error msg =>
      rw [performAnalysis_err_history]
      exact hlen
  · have h10 : st.history = st.history.take 10 := by rw [hemp]; rfl
    rw [insert_fold_history rs st hall h10, hemp, List.append_nil]

/-- Witness for claim C6: eleven successful insertions starting from the
empty session leave the ten most recent entries. -/
theorem performAnalysis_history_spec_witness :
    ((List.replicate 11 sampleAnalysis).foldl
        (fun s r => performAnalysis s (Except.ok r)) emptyAppState).history =
      (List.replicate 11 sampleAnalysis).reverse.take 10 := by
  exact performAnalysis_history_spec.2.2 _ _ (by decide) rfl (by decide)

/-- Claim C7: a completed deep analysis replaces only the
preventive_health_data of the current response; every other field is
unchanged. -/
theorem handleRunDeepAnalysis_frame (st : AppState) (R : AnalysisResponse)
    (D : PreventiveHealthData) (hd : st.data = some R) :
    ∃ R', (handleRunDeepAnalysis st (Except.ok D)).data = some R'
      ∧ R'.preventive_health_data = some D
      ∧ R'.food_analysis = R.food_analysis
      ∧ R'.personalized_impact = R.personalized_impact
      ∧ R'.risk_prediction = R.risk_prediction
      ∧ R'.gut_health_analysis = R.gut_health_analysis
      ∧ R'.food_compatibility = R.food_compatibility
      ∧ R'.ai_recommendations = R.ai_recommendations
      ∧ R'.ui_metadata = R.ui_metadata
      ∧ R'.downloadable_report = R.downloadable_report
      ∧ R'.error = R.error := by
  refine ⟨{ R with preventive_health_data := some D }, ?_, rfl, rfl, rfl, rfl,
    rfl, rfl, rfl, rfl, rfl, rfl⟩
  simp [handleRunDeepAnalysis, hd]

/-- Witness for claim C7 on a concrete session state. -/
theorem handleRunDeepAnalysis_frame_witness :
    ∃ R', (handleRunDeepAnalysis { emptyAppState with data := some sampleAnalysis }
        (Except.ok ⟨JsValue.strV "deep"⟩)).data = some R'
      ∧ R'.preventive_health_data = some ⟨JsValue.strV "deep"⟩
      ∧ R'.food_analysis = sampleAnalysis.food_analysis
      ∧ R'.personalized_impact = sampleAnalysis.personalized_impact
      ∧ R'.risk_prediction = sampleAnalysis.risk_prediction
      ∧ R'.gut_health_analysis = sampleAnalysis.gut_health_analysis
      ∧ R'.food_compatibility = sampleAnalysis.food_compatibility
      ∧ R'.ai_recommendations = sampleAnalysis.ai_recommendations
      ∧ R'.ui_metadata = sampleAnalysis.ui_metadata
      ∧ R'.downloadable_report = sampleAnalysis.downloadable_report
      ∧ R'.error = sampleAnalysis.error := by
  exact handleRunDeepAnalysis_frame _ sampleAnalysis ⟨JsValue.strV "deep"⟩ rfl

/-- Claim C10: `performAnalysis` clears the current result and error before
the provider call, so a failed primary analysis leaves a null result and the
classified message as the error (the prior base analysis is not restored),
whereas report and deep-analysis failures leave the displayed result
untouched. -/
theorem performAnalysis_failure_spec :
    (∀ st, (performAnalysisStart st).data = none
        ∧ (performAnalysisStart st).error = none)
    ∧ (∀ st msg, msg ≠ "" →
        (performAnalysis st (Except.error msg)).data = none
        ∧ (performAnalysis st (Except.error msg)).error = some msg)
    ∧ (∀ st e, (handleGenerateReport st (Except.error e)).data = st.data)
    ∧ (∀ st e, (handleRunDeepAnalysis st (Except.error e)).data = st.data) := by
  refine ⟨fun st => ⟨rfl, rfl⟩, fun st msg hm => ?_, fun st e => ?_,
    fun st e => ?_⟩
  · have hb : (msg == "") = false := beq_eq_false_iff_ne.mpr hm
    constructor <;>
      simp [performAnalysis, performAnalysisStart, performAnalysisFinish, hb]
  · unfold handleGenerateReport
    by_cases hq : (trimList st.query.data).isEmpty = true
    · simp [hq]
    · rw [if_neg (by simpa using hq)]
      cases hd : st.data <;> simp [hd]
  · unfold handleRunDeepAnalysis
    cases hd : st.data <;> simp [hd]

/-- Witness for claim C10: a failed analysis on a concrete session leaves a
null result and the thrown message as the error. -/
theorem performAnalysis_failure_spec_witness :
    (performAnalysis { emptyAppState with data := some sampleAnalysis }
        (Except.error "boom")).data = none
    ∧ (performAnalysis { emptyAppState with data := some sampleAnalysis }
        (Except.error "boom")).error = some "boom" := by
  exact performAnalysis_failure_spec.2.1 _ "boom" (by decide)

end NutritionChecker
